import Mathlib

/-!
Verification of the HamsterMonitor activity pipeline.

This file is a shallow embedding of the stateful core of the repository:

* `main.py` — `detect_hamster_activity` (background subtraction, frame-diff
  fallback, zone/motion classification state machine);
* `src/cameras/camera_manager.py` — `CameraManager` (API error counter /
  circuit breaker, bounded frame queue);
* `ai_activity_detector.py` — `HamsterActivityDetector` (bounded activity
  history, averaged activity pattern);
* `src/sensors/sensor_manager.py` — `SensorManager` (retrying sensor read,
  last-readings slot);
* `src/config/settings.py` — constants.

Grayscale images are lists of pixel rows, each pixel a `Nat` (0..255).
Python floats that only ever hold small decimal literals and sums of
remote-supplied scores are modelled as `Rat`; the comparison
`x > 0.5 * t` on integers is modelled exactly as `2 * x > t` (0.5 is an
exact binary float), and `x > 0.3 * t` as `10 * x > 3 * t` (float 0.3 is
not exact; the difference only matters on the exact boundary
`10 * x = 3 * t`, which no theorem below touches).
External cv2 calls that are not part of this repository (the KNN
background subtractor, BGR→gray conversion, the morphological
open/close) are taken as explicit function parameters; everything the
repository itself computes is embedded concretely.
-/

/-- A grayscale image: rows of pixels, each pixel a `Nat` intensity. -/
abbrev Img : Type := List (List Nat)

/-- Embeds `cv2.countNonZero`: number of nonzero pixels of a mask. -/
def countNonZero (m : Img) : Nat :=
  (m.map (fun r => r.countP (fun px => px != 0))).sum

/-- A mask is all-zero: every pixel equals 0. -/
def isZeroImg (m : Img) : Bool :=
  m.all (fun r => r.all (fun px => px == 0))

/-- An activity area rectangle, as stored in the configuration
(`WHEEL_AREA` etc. in `main.py`). -/
structure Area where
  x1 : Nat
  y1 : Nat
  x2 : Nat
  y2 : Nat

/-- The configuration dictionary of `main.py` (`DEFAULT_CONFIG` keys used
by `detect_hamster_activity`). -/
structure Config where
  MOVEMENT_THRESHOLD : Nat
  RESTING_THRESHOLD : Nat
  ACTIVITY_DETECTION_ENABLED : Bool
  WHEEL_AREA : Area
  FOOD_AREA : Area
  WATER_AREA : Area

/-- The default configuration of `main.py` (`DEFAULT_CONFIG`), less the
overlay-only key `SHOW_TEMP_HUM`. -/
def DEFAULT_CONFIG : Config :=
  { MOVEMENT_THRESHOLD := 1000
    RESTING_THRESHOLD := 5
    ACTIVITY_DETECTION_ENABLED := true
    WHEEL_AREA := ⟨200, 200, 440, 280⟩
    FOOD_AREA := ⟨50, 300, 150, 400⟩
    WATER_AREA := ⟨450, 300, 550, 400⟩ }

/-- NumPy slice `thresh[y1:y2, x1:x2]` (clamping slice semantics). -/
def roi (a : Area) (m : Img) : Img :=
  ((m.drop a.y1).take (a.y2 - a.y1)).map (fun r => (r.drop a.x1).take (a.x2 - a.x1))

/-- From `main.py` lines 128–132: the no-movement counter update
(step 2 of the classification). -/
def updateCounter (cfg : Config) (movement no_movement_frames : Nat) : Nat :=
  if movement < cfg.MOVEMENT_THRESHOLD then no_movement_frames + 1 else 0

/-- From `main.py` lines 110–146: the decision part of `detect_hamster_activity`,
taking the final binary mask `thresh`.  Returns the label and the updated
no-movement counter. -/
def classify (cfg : Config) (thresh : Img) (prev_activity : String)
    (no_movement_frames : Nat) : String × Nat :=
  let movement := countNonZero thresh
  let wheel_movement := countNonZero (roi cfg.WHEEL_AREA thresh)
  let food_movement := countNonZero (roi cfg.FOOD_AREA thresh)
  let water_movement := countNonZero (roi cfg.WATER_AREA thresh)
  let n := updateCounter cfg movement no_movement_frames
  if n ≥ cfg.RESTING_THRESHOLD then ("Resting", n)
  else if 2 * wheel_movement > cfg.MOVEMENT_THRESHOLD then ("Running on wheel", n)
  else if 10 * food_movement > 3 * cfg.MOVEMENT_THRESHOLD then ("Eating", n)
  else if 10 * water_movement > 3 * cfg.MOVEMENT_THRESHOLD then ("Drinking water", n)
  else if movement > cfg.MOVEMENT_THRESHOLD then ("Exploring", n)
  else (prev_activity, n)

/-- Feeding a sequence of already-thresholded masks through `classify`,
threading the returned label and counter exactly as the per-frame loop in
`generate_camera_frames` does (`prev_activity = activity`). -/
def runMasks (cfg : Config) (s : String × Nat) (ms : List Img) : String × Nat :=
  ms.foldl (fun s m => classify cfg m s.1 s.2) s

-- Basic facts about all-zero masks.

/-- A small 16×16 test configuration: wheel zone rows/cols 0–7, food zone
8–11, water zone 12–15, movement threshold 100, resting threshold 5. -/
def cfgEx : Config :=
  { MOVEMENT_THRESHOLD := 100
    RESTING_THRESHOLD := 5
    ACTIVITY_DETECTION_ENABLED := true
    WHEEL_AREA := ⟨0, 0, 8, 8⟩
    FOOD_AREA := ⟨8, 8, 12, 12⟩
    WATER_AREA := ⟨12, 12, 16, 16⟩ }

/-- A 16×16 mask with 51 nonzero pixels inside the wheel zone
(51 = 0.51 × movement threshold 100), 50 nonzero pixels outside every
zone, and the food and water zones all zero: total motion 101 > 100. -/
def wheelMaskEx : Img :=
  List.replicate 6 (List.replicate 16 255) ++
  [[255, 255, 255, 0, 0, 0, 0, 0, 255, 255, 0, 0, 0, 0, 0, 0]] ++
  List.replicate 9 (List.replicate 16 0)

/-- A 16×16 all-zero mask. -/
def zeroMaskEx : Img := List.replicate 16 (List.replicate 16 0)

/-- Embeds `cv2.absdiff` on grayscale images: pixelwise absolute difference. -/
def absdiffImg (a b : Img) : Img :=
  List.zipWith (fun r s => List.zipWith (fun x y => max x y - min x y) r s) a b

/-- Embeds `cv2.threshold(img, t, 255, cv2.THRESH_BINARY)`: pixels strictly above
`t` become 255, the rest 0. -/
def thresholdImg (t : Nat) (m : Img) : Img :=
  m.map (fun r => r.map (fun px => if t < px then 255 else 0))

/-- From `main.py` lines 95–100: if the subtractor's mask has fewer than 100
nonzero pixels and a previous frame is available, replace it by the
absolute frame difference thresholded at 25. -/
def fallbackMask (fg_mask gray : Img) (prev_frame : Option Img) : Img :=
  if countNonZero fg_mask < 100 then
    match prev_frame with
    | some p => thresholdImg 25 (absdiffImg gray p)
    | none => fg_mask
  else fg_mask

/-- From `main.py` line 103: the morphological kernel is
`cv2.getStructuringElement(cv2.MORPH_ELLIPSE, (3, 3))` — side length 3. -/
def morphKernelSize : Nat := 3

/-- A captured frame: `len(frame.shape) == 3` distinguishes a colour frame
from one that is already grayscale. -/
inductive RawFrame where
  | colorF (c : List (List (Nat × Nat × Nat)))
  | grayF (g : Img)
deriving DecidableEq

/-- From `main.py` lines 81–146, `detect_hamster_activity`, state passing made
explicit.  The cv2 externals are parameters: `cvt` is
`cv2.cvtColor(·, COLOR_BGR2GRAY)`, `bgApply` is the KNN background
subtractor's `apply` (returning its updated internal state and the
foreground mask), `morphOpenCloseK k` is the open-then-close
`cv2.morphologyEx` pass with the elliptical `k`×`k` kernel.  Returns
`((activity, no_movement_frames, stored frame), subtractor state)`; the
caller stores the third component into its `prev_frame` slot. -/
def detect_hamster_activity {B : Type}
    (cvt : List (List (Nat × Nat × Nat)) → Img)
    (bgApply : B → Img → B × Img)
    (morphOpenCloseK : Nat → Img → Img)
    (cfg : Config) (frame : RawFrame) (bg : B)
    (prev_activity : String) (no_movement_frames : Nat) (prev_frame : Option Img) :
    (String × Nat × RawFrame) × B :=
  if cfg.ACTIVITY_DETECTION_ENABLED = false then
    (("Activity detection disabled", no_movement_frames, frame), bg)
  else
    let gray := match frame with
      | .colorF c => cvt c
      | .grayF g => g
    let s := bgApply bg gray
    let fg1 := fallbackMask s.2 gray prev_frame
    let fg2 := morphOpenCloseK morphKernelSize fg1
    let thresh := thresholdImg 127 fg2
    let r := classify cfg thresh prev_activity no_movement_frames
    ((r.1, r.2, .grayF gray), s.1)

/-- Variant of `cfgEx` with activity detection switched off. -/
def cfgExOff : Config := { cfgEx with ACTIVITY_DETECTION_ENABLED := false }

/-- Add a constant intensity `c` to every pixel (uniform brightening). -/
def shiftImg (c : Nat) (m : Img) : Img :=
  m.map (fun r => r.map (fun px => px + c))

/-- Modelled from the spec: total pixel intensity of a frame. -/
def sumImg (m : Img) : Nat := (m.map (fun r => r.sum)).sum

/-- Modelled from the spec: number of pixels of a frame. -/
def numPixels (m : Img) : Nat := (m.map (fun r => r.length)).sum

/-- Modelled from the spec (not present in `main.py`): the lighting-mode
switch — low-light when mean frame luminance is below 50/255, i.e. when
the intensity sum is below 50 × the pixel count. -/
def isLowLight (g : Img) : Bool := sumImg g < 50 * numPixels g

/-- Modelled from the spec (not present in `main.py`): the
lighting-mode-dependent frame-differencing cutoff — 25 in low light,
30 otherwise. -/
def specFallbackCutoff (g : Img) : Nat := if isLowLight g then 25 else 30

/-- Modelled from the spec (not present in `main.py`): the
lighting-mode-dependent morphological kernel side — 3 in low light,
5 otherwise. -/
def specMorphKernelSize (g : Img) : Nat := if isLowLight g then 3 else 5

/-- Modelled from the spec (not present in `main.py`): the fallback step
with the lighting-mode-dependent cutoff in place of the fixed 25. -/
def specFallbackMask (fg_mask gray : Img) (prev_frame : Option Img) : Img :=
  if countNonZero fg_mask < 100 then
    match prev_frame with
    | some p => thresholdImg (specFallbackCutoff gray) (absdiffImg gray p)
    | none => fg_mask
  else fg_mask

/-- From `src/config/settings.py` line 12. -/
def API_ERROR_THRESHOLD : Nat := 3

/-- The `last_activity_result` dictionary of `CameraManager.__init__`
(`src/cameras/camera_manager.py` lines 15–18). -/
structure ActivityResultSlot where
  activity : String
  activity_probability : Rat
deriving DecidableEq

/-- The mutable state of `CameraManager` touched by the classification
path: the consecutive-failure counter and the last stored result. -/
structure CameraManagerState where
  api_error_count : Nat
  last_activity_result : ActivityResultSlot
deriving DecidableEq

/-- From `CameraManager.__init__`: counter 0, result `Unknown` / 0.0. -/
def initCameraManagerState : CameraManagerState :=
  { api_error_count := 0
    last_activity_result := { activity := "Unknown", activity_probability := 0 } }

/-- Outcome of one `requests.post` to the classification endpoint, as
distinguished by `_process_frame_async` (lines 52–60): a 200 response with
a decodable JSON body; an exception (timeout, transport error, or
undecodable body — `requests.RequestException` or `json.JSONDecodeError`);
or a non-200 response, which the code silently ignores. -/
inductive ApiOutcome where
  | ok (activity : String) (probability : Rat)
  | apiError
  | non200

/-- From `CameraManager._process_frame_async` lines 52–60: a success stores the
remote result and zeroes the counter; an exception increments the counter;
a non-200 response changes nothing. -/
def processFrameResult (s : CameraManagerState) : ApiOutcome → CameraManagerState
  | .ok a p =>
      { api_error_count := 0
        last_activity_result := { activity := a, activity_probability := p } }
  | .apiError => { s with api_error_count := s.api_error_count + 1 }
  | .non200 => s

/-- From `CameraManager.get_activity_status` lines 106–110. -/
def get_activity_status (s : CameraManagerState) : String × Rat :=
  if s.api_error_count ≥ API_ERROR_THRESHOLD then ("API Unavailable", 0)
  else (s.last_activity_result.activity, s.last_activity_result.activity_probability)

/-- A state in which one remote classification has succeeded and no
failure has occurred since. -/
def cmAfterSuccess : CameraManagerState :=
  processFrameResult initCameraManagerState (.ok "Running on wheel" (4 / 5))

/-- From `ai_activity_detector.py` lines 117–124: the per-frame probability
dictionary, always built with exactly these five keys. -/
structure ActivityProbs where
  running : Rat
  eating : Rat
  drinking : Rat
  sleeping : Rat
  exploring : Rat
deriving DecidableEq

/-- From `HamsterActivityDetector.max_history` (line 51). -/
def max_history : Nat := 30

/-- From `ai_activity_detector.py` lines 155–158: append the result, then
`pop(0)` once the length exceeds `max_history`. -/
def recordActivity (history : List ActivityProbs) (probs : ActivityProbs) :
    List ActivityProbs :=
  let h := history ++ [probs]
  if h.length > max_history then h.drop 1 else h

/-- The keys of `activity_states` (lines 32–38), in insertion order; both
`activity_probs` and the averages dictionary iterate over them. -/
def ACTIVITY_LABELS : List String :=
  ["running", "eating", "drinking", "sleeping", "exploring"]

/-- Componentwise accumulation `avg_probs[act] += prob` over one stored
result (lines 177–179). -/
def addProbs (a b : ActivityProbs) : ActivityProbs :=
  { running := a.running + b.running
    eating := a.eating + b.eating
    drinking := a.drinking + b.drinking
    sleeping := a.sleeping + b.sleeping
    exploring := a.exploring + b.exploring }

/-- The all-zero accumulator `{k: 0.0 for k in self.activity_states}`. -/
def zeroProbs : ActivityProbs := ⟨0, 0, 0, 0, 0⟩

/-- From `HamsterActivityDetector.get_activity_pattern` (lines 165–184): zero
for every label on an empty history, otherwise accumulate every stored
result and divide each entry by the history length.  The resulting
mapping is the association list in the key order of `activity_states`. -/
def get_activity_pattern (history : List ActivityProbs) : List (String × Rat) :=
  if history.isEmpty then ACTIVITY_LABELS.map (fun k => (k, 0))
  else
    let tot := history.foldl addProbs zeroProbs
    let n : Rat := history.length
    [("running", tot.running / n), ("eating", tot.eating / n),
     ("drinking", tot.drinking / n), ("sleeping", tot.sleeping / n),
     ("exploring", tot.exploring / n)]

/-- The score a stored result assigns to a label. -/
def score (k : String) (p : ActivityProbs) : Rat :=
  if k = "running" then p.running
  else if k = "eating" then p.eating
  else if k = "drinking" then p.drinking
  else if k = "sleeping" then p.sleeping
  else if k = "exploring" then p.exploring
  else 0

/-- The two-result history used to witness C7. -/
def probsHistEx : List ActivityProbs :=
  [⟨1, 1 / 2, 0, 0, 0⟩, ⟨0, 1 / 2, 1, 0, 1⟩]

/-- From `CameraManager.__init__` line 13: `Queue(maxsize=10)`. -/
def frame_queue_maxsize : Nat := 10

/-- Embeds `queue.Queue.put(frame, block=False)` under the bare `except: pass` of
`_feed_camera0_frames` (lines 87–90): when the queue already holds
`maxsize` items the `Full` exception is swallowed and the frame is
dropped; otherwise the frame is appended at the back. -/
def enqueueFrame {α : Type} (maxsize : Nat) (q : List α) (x : α) : List α :=
  if q.length ≥ maxsize then q else q ++ [x]

/-- Embeds `queue.Queue.get` as used by `_process_frame_async` (line 44): remove
and return the frame at the front, if any. -/
def dequeueFrame {α : Type} (q : List α) : Option (α × List α) :=
  match q with
  | [] => none
  | x :: rest => some (x, rest)

/-- The `last_readings` dictionary of `SensorManager.__init__`
(`src/sensors/sensor_manager.py` lines 15–21). -/
structure SensorReadings where
  temperature : Rat
  humidity : Rat
  air_quality : String
  air_quality_ppm : Rat
  last_read_time : Rat
deriving DecidableEq

/-- From `SensorManager._read_sensors` line 84. -/
def max_retries : Nat := 3

/-- What one retry attempt of `_read_sensors` observes: either the DHT
read raises, or it returns (possibly `None`) temperature and humidity
values together with the air-quality read that a success would then
perform. -/
inductive SensorAttempt where
  | raises
  | reads (t h : Option Rat) (air_quality : String) (ppm : Rat)

/-- An attempt counts as a success exactly when both temperature and
humidity came back non-`None` (line 93). -/
def attemptSucceeds : SensorAttempt → Bool
  | .reads (some _) (some _) _ _ => true
  | _ => false

/-- From `SensorManager._read_sensors` lines 82–110: walk the retry attempts in
order; the first attempt with both values present rewrites the whole
`last_readings` slot (with the read time `now`) and returns `True`; if
every attempt raises or misses a value, the slot is left untouched and
`False` is returned. -/
def read_sensors (st : SensorReadings) (now : Rat) :
    List SensorAttempt → SensorReadings × Bool
  | [] => (st, false)
  | .raises :: rest => read_sensors st now rest
  | .reads t h aq ppm :: rest =>
      match t, h with
      | some tv, some hv =>
          ({ temperature := tv, humidity := hv, air_quality := aq,
             air_quality_ppm := ppm, last_read_time := now }, true)
      | some _, none => read_sensors st now rest
      | none, some _ => read_sensors st now rest
      | none, none => read_sensors st now rest

/-- From `SensorManager.get_readings` lines 129–136. -/
def get_readings (st : SensorReadings) : Rat × Rat × String × Rat :=
  (st.temperature, st.humidity, st.air_quality, st.air_quality_ppm)

/-- The stored reading used to witness C9. -/
def sensorStEx : SensorReadings :=
  { temperature := 22, humidity := 40, air_quality := "Good",
    air_quality_ppm := 80, last_read_time := 1000 }

theorem countNonZero_of_isZero {m : Img} (h : isZeroImg m = true) :
    countNonZero m = 0 := by
  simp only [isZeroImg, List.all_eq_true, beq_iff_eq] at h
  simp only [countNonZero]
  apply List.sum_eq_zero
  intro x hx
  obtain ⟨r, hr, rfl⟩ := List.mem_map.mp hx
  rw [List.countP_eq_zero]
  intro px hpx
  simp [h r hr px hpx]

theorem isZero_roi {m : Img} (a : Area) (h : isZeroImg m = true) :
    isZeroImg (roi a m) = true := by
  simp only [isZeroImg, List.all_eq_true, beq_iff_eq] at h ⊢
  intro r hr px hpx
  simp only [roi, List.mem_map] at hr
  obtain ⟨r0, hr0, rfl⟩ := hr
  have hr0' : r0 ∈ m := List.take_subset _ _ (by exact hr0) |> List.drop_subset _ _
  have hpx' : px ∈ r0 := List.take_subset _ _ hpx |> List.drop_subset _ _
  exact h r0 hr0' px hpx'

/-- On an all-zero mask with positive movement threshold, `classify`
increments the counter and returns `Resting` once the counter reaches the
resting threshold, and otherwise retains the previous activity. -/
theorem classify_zero_mask (cfg : Config) (m : Img) (prev : String) (nmf : Nat)
    (hT : 0 < cfg.MOVEMENT_THRESHOLD) (hz : isZeroImg m = true) :
    classify cfg m prev nmf =
      ((if nmf + 1 ≥ cfg.RESTING_THRESHOLD then "Resting" else prev), nmf + 1) := by
  have h0 : countNonZero m = 0 := countNonZero_of_isZero hz
  have hw : countNonZero (roi cfg.WHEEL_AREA m) = 0 :=
    countNonZero_of_isZero (isZero_roi _ hz)
  have hf : countNonZero (roi cfg.FOOD_AREA m) = 0 :=
    countNonZero_of_isZero (isZero_roi _ hz)
  have hwa : countNonZero (roi cfg.WATER_AREA m) = 0 :=
    countNonZero_of_isZero (isZero_roi _ hz)
  simp only [classify, updateCounter, h0, hw, hf, hwa, hT, if_pos, Nat.mul_zero]
  split
  · rfl
  · simp [Nat.not_lt_of_lt hT, Nat.not_lt.mpr (Nat.zero_le _)]

/-- On a nonempty sequence of all-zero masks long enough that the counter
(which grows by one per frame) reaches the resting threshold, the final
label is `Resting`. -/
theorem runMasks_allZero_label (cfg : Config) (hT : 0 < cfg.MOVEMENT_THRESHOLD) :
    ∀ (ms : List Img) (prev : String) (nmf : Nat),
      (∀ m ∈ ms, isZeroImg m = true) →
      1 ≤ ms.length → cfg.RESTING_THRESHOLD ≤ nmf + ms.length →
      (runMasks cfg (prev, nmf) ms).1 = "Resting" := by
  intro ms
  induction ms with
  | nil => intro prev nmf _ h1 _; simp at h1
  | cons m ms ih =>
    intro prev nmf h _ hR
    simp only [runMasks, List.foldl_cons]
    rw [classify_zero_mask cfg m prev nmf hT (h m (by simp))]
    rcases Nat.eq_zero_or_pos ms.length with h0 | hpos
    · have hnil : ms = [] := List.length_eq_zero.mp h0
      subst hnil
      simp only [List.foldl_nil]
      have hge : nmf + 1 ≥ cfg.RESTING_THRESHOLD := by
        simp only [List.length_cons, List.length_nil] at hR; omega
      simp [hge]
    · exact ih _ (nmf + 1) (fun m' hm' => h m' (by simp [hm'])) hpos
        (by simp only [List.length_cons] at hR; omega)

/-- C1: whenever the updated no-movement counter is below the resting
threshold and wheel-zone motion exceeds half the movement threshold, the
classifier returns `Running on wheel` (rule priority: the wheel rule is
checked before the food, water and exploring rules, so this holds even
when total motion exceeds the movement threshold). -/
theorem classify_wheel_priority (cfg : Config) (thresh : Img) (prev : String) (nmf : Nat)
    (hrest : updateCounter cfg (countNonZero thresh) nmf < cfg.RESTING_THRESHOLD)
    (hwheel : 2 * countNonZero (roi cfg.WHEEL_AREA thresh) > cfg.MOVEMENT_THRESHOLD) :
    (classify cfg thresh prev nmf).1 = "Running on wheel" := by
  simp only [classify]
  rw [if_neg (Nat.not_le.mpr hrest), if_pos hwheel]

/-- Witness for C1: on `wheelMaskEx` total motion is 101 (> threshold 100,
so the counter resets to 0 < 5) and wheel motion is 51 with
2 × 51 > 100, and the classifier indeed answers `Running on wheel`,
not `Exploring`. -/
theorem classify_wheel_priority_witness :
    updateCounter cfgEx (countNonZero wheelMaskEx) 3 < cfgEx.RESTING_THRESHOLD ∧
    2 * countNonZero (roi cfgEx.WHEEL_AREA wheelMaskEx) > cfgEx.MOVEMENT_THRESHOLD ∧
    countNonZero wheelMaskEx > cfgEx.MOVEMENT_THRESHOLD ∧
    countNonZero (roi cfgEx.FOOD_AREA wheelMaskEx) = 0 ∧
    countNonZero (roi cfgEx.WATER_AREA wheelMaskEx) = 0 ∧
    (classify cfgEx wheelMaskEx "Exploring" 3).1 = "Running on wheel" :=
  ⟨by decide, by decide, by decide, by decide, by decide,
   classify_wheel_priority cfgEx wheelMaskEx "Exploring" 3 (by decide) (by decide)⟩

/-- C2: for any starting label and counter, feeding at least
`RESTING_THRESHOLD` consecutive all-zero masks (with a positive movement
threshold, so each such frame counts as no movement and increments the
counter) makes the returned label `Resting`; since this holds for every
length ≥ `RESTING_THRESHOLD`, it holds on the threshold-th frame and on
every later frame. -/
theorem classify_resting_sequence (cfg : Config) (prev : String) (nmf : Nat)
    (ms : List Img) (hT : 0 < cfg.MOVEMENT_THRESHOLD)
    (hlen : cfg.RESTING_THRESHOLD ≤ ms.length) (hne : ms ≠ [])
    (hz : ∀ m ∈ ms, isZeroImg m = true) :
    (runMasks cfg (prev, nmf) ms).1 = "Resting" := by
  have h1 : 1 ≤ ms.length := by
    cases ms with
    | nil => exact absurd rfl hne
    | cons a l => simp [List.length_cons]
  exact runMasks_allZero_label cfg hT ms prev nmf hz h1 (by omega)

/-- Witness for C2: five all-zero frames (= the resting threshold of
`cfgEx`), starting from label `Exploring` and counter 0, end in `Resting`. -/
theorem classify_resting_sequence_witness :
    0 < cfgEx.MOVEMENT_THRESHOLD ∧
    cfgEx.RESTING_THRESHOLD ≤ (List.replicate 5 zeroMaskEx).length ∧
    (runMasks cfgEx ("Exploring", 0) (List.replicate 5 zeroMaskEx)).1 = "Resting" :=
  ⟨by decide, by decide,
   classify_resting_sequence cfgEx "Exploring" 0 (List.replicate 5 zeroMaskEx)
     (by decide) (by decide) (by decide) (by decide)⟩

/-- C10: with `ACTIVITY_DETECTION_ENABLED` false, `detect_hamster_activity`
returns the fixed label, the counter unchanged, the unmodified input frame
as the stored previous frame (no grayscale conversion), and the background
subtractor state untouched — for every subtractor implementation and every
input. -/
theorem detect_disabled {B : Type}
    (cvt : List (List (Nat × Nat × Nat)) → Img)
    (bgApply : B → Img → B × Img)
    (morphOpenCloseK : Nat → Img → Img)
    (cfg : Config) (frame : RawFrame) (bg : B)
    (prev_activity : String) (no_movement_frames : Nat) (prev_frame : Option Img)
    (hdis : cfg.ACTIVITY_DETECTION_ENABLED = false) :
    detect_hamster_activity cvt bgApply morphOpenCloseK cfg frame bg
        prev_activity no_movement_frames prev_frame =
      (("Activity detection disabled", no_movement_frames, frame), bg) := by
  simp [detect_hamster_activity, hdis]

/-- Witness for C10: a concrete disabled run (subtractor state modelled as
a counter that every enabled call would increment) returns the fixed
label, the original counter 7, the colour frame unmodified, and state 42. -/
theorem detect_disabled_witness :
    cfgExOff.ACTIVITY_DETECTION_ENABLED = false ∧
    detect_hamster_activity (fun _ => zeroMaskEx)
        (fun (b : Nat) _ => (b + 1, zeroMaskEx)) (fun _ m => m) cfgExOff
        (.colorF [[(1, 2, 3)]]) 42 "Exploring" 7 none =
      (("Activity detection disabled", 7, .colorF [[(1, 2, 3)]]), 42) :=
  ⟨rfl, detect_disabled (fun _ => zeroMaskEx)
     (fun (b : Nat) _ => (b + 1, zeroMaskEx)) (fun _ m => m) cfgExOff
     (.colorF [[(1, 2, 3)]]) 42 "Exploring" 7 none rfl⟩

theorem zipWith_absdiff_shift (c : Nat) : ∀ (r s : List Nat),
    List.zipWith (fun x y => max x y - min x y)
        (r.map (fun px => px + c)) (s.map (fun px => px + c)) =
      List.zipWith (fun x y => max x y - min x y) r s := by
  intro r
  induction r with
  | nil => intro s; simp
  | cons x r ih =>
    intro s
    cases s with
    | nil => simp
    | cons y s =>
      simp only [List.map_cons, List.zipWith_cons_cons, ih]
      rw [max_add_add_right, min_add_add_right, Nat.add_sub_add_right]

theorem absdiffImg_shift (c : Nat) : ∀ (a b : Img),
    absdiffImg (shiftImg c a) (shiftImg c b) = absdiffImg a b := by
  intro a
  induction a with
  | nil => intro b; simp [absdiffImg, shiftImg]
  | cons r a ih =>
    intro b
    cases b with
    | nil => simp [absdiffImg, shiftImg]
    | cons s b =>
      have ih' := ih b
      simp only [absdiffImg, shiftImg, List.map_cons, List.zipWith_cons_cons] at ih' ⊢
      rw [zipWith_absdiff_shift c r s, ih']

/-- C5 counterexample: on the uniformly bright frame `[[100,100],[100,100]]`
(mean luminance 100 ≥ 50, so "normal-light" mode per the spec) with
previous frame `[[72,72],[72,72]]` (absolute difference 28 everywhere) and
an empty primary mask, the code's fallback thresholds at 25 and marks every
pixel foreground, while the spec's normal-mode cutoff of 30 would mark
none; and the code's morphological kernel is 3×3, not the 5×5 the spec
prescribes for normal light. -/
theorem fallback_lowlight_counterexample :
    isLowLight [[100, 100], [100, 100]] = false ∧
    fallbackMask [[0, 0], [0, 0]] [[100, 100], [100, 100]]
        (some [[72, 72], [72, 72]]) = [[255, 255], [255, 255]] ∧
    specFallbackMask [[0, 0], [0, 0]] [[100, 100], [100, 100]]
        (some [[72, 72], [72, 72]]) = [[0, 0], [0, 0]] ∧
    fallbackMask [[0, 0], [0, 0]] [[100, 100], [100, 100]]
        (some [[72, 72], [72, 72]]) ≠
      specFallbackMask [[0, 0], [0, 0]] [[100, 100], [100, 100]]
        (some [[72, 72], [72, 72]]) ∧
    morphKernelSize ≠ specMorphKernelSize [[100, 100], [100, 100]] := by
  decide

/-- C5 amended: `detect_hamster_activity` has no lighting mode at all —
for every frame, the frame-differencing fallback thresholds at the fixed
cutoff 25 and the morphological kernel is the fixed 3×3; in particular
uniformly brightening both frames (raising mean luminance arbitrarily)
never changes the fallback mask. -/
theorem fallback_no_lowlight_mode (fg g p : Img) (c : Nat)
    (hsparse : countNonZero fg < 100) :
    fallbackMask fg g (some p) = thresholdImg 25 (absdiffImg g p) ∧
    fallbackMask fg (shiftImg c g) (some (shiftImg c p)) = fallbackMask fg g (some p) ∧
    morphKernelSize = 3 := by
  refine ⟨?_, ?_, rfl⟩
  · simp [fallbackMask, hsparse]
  · simp [fallbackMask, hsparse, absdiffImg_shift]

/-- Witness for the amended C5: brightening the dark frame
`[[10,12],[40,41]]` and its predecessor `[[9,50],[0,41]]` by 80 (turning a
low-light frame into a normal-light one) leaves the fallback mask
unchanged, and that mask is the absolute difference thresholded at 25. -/
theorem fallback_no_lowlight_mode_witness :
    countNonZero [[0, 0], [0, 0]] < 100 ∧
    isLowLight [[10, 12], [40, 41]] = true ∧
    isLowLight (shiftImg 80 [[10, 12], [40, 41]]) = false ∧
    fallbackMask [[0, 0], [0, 0]] [[10, 12], [40, 41]] (some [[9, 50], [0, 41]]) =
      thresholdImg 25 (absdiffImg [[10, 12], [40, 41]] [[9, 50], [0, 41]]) ∧
    fallbackMask [[0, 0], [0, 0]] (shiftImg 80 [[10, 12], [40, 41]])
        (some (shiftImg 80 [[9, 50], [0, 41]])) =
      fallbackMask [[0, 0], [0, 0]] [[10, 12], [40, 41]] (some [[9, 50], [0, 41]]) ∧
    morphKernelSize = 3 :=
  ⟨by decide, by decide, by decide,
   (fallback_no_lowlight_mode [[0, 0], [0, 0]] [[10, 12], [40, 41]]
      [[9, 50], [0, 41]] 80 (by decide)).1,
   (fallback_no_lowlight_mode [[0, 0], [0, 0]] [[10, 12], [40, 41]]
      [[9, 50], [0, 41]] 80 (by decide)).2.1,
   (fallback_no_lowlight_mode [[0, 0], [0, 0]] [[10, 12], [40, 41]]
      [[9, 50], [0, 41]] 80 (by decide)).2.2⟩

/-- C3 counterexample: from a healthy state holding a successful result
(counter 0), a single call failure increments the counter to 1 but the
reported activity is still the stored result, not `Unavailable` — the
degradation the claim asserts does not happen below the breaker
threshold. -/
theorem single_failure_counterexample :
    (processFrameResult cmAfterSuccess .apiError).api_error_count = 1 ∧
    get_activity_status (processFrameResult cmAfterSuccess .apiError) =
      ("Running on wheel", 4 / 5) ∧
    get_activity_status (processFrameResult cmAfterSuccess .apiError) ≠
      ("API Unavailable", 0) := by
  refine ⟨rfl, rfl, ?_⟩
  intro h
  exact absurd (congrArg Prod.fst h) (by decide)

/-- C3 amended: any call failure increments `consecutiveFailures`, but the
reported result degrades to `API Unavailable` with confidence 0 only once
the counter has reached the threshold; below the threshold the previously
stored result is still reported.  A success resets the counter to 0 and
stores the remote result verbatim. -/
theorem failure_degrades_at_threshold (s : CameraManagerState) (a : String) (p : Rat) :
    (processFrameResult s .apiError).api_error_count = s.api_error_count + 1 ∧
    ((processFrameResult s .apiError).api_error_count ≥ API_ERROR_THRESHOLD →
      get_activity_status (processFrameResult s .apiError) = ("API Unavailable", 0)) ∧
    ((processFrameResult s .apiError).api_error_count < API_ERROR_THRESHOLD →
      get_activity_status (processFrameResult s .apiError) =
        (s.last_activity_result.activity, s.last_activity_result.activity_probability)) ∧
    (processFrameResult s (.ok a p)).api_error_count = 0 ∧
    (processFrameResult s (.ok a p)).last_activity_result =
      { activity := a, activity_probability := p } := by
  refine ⟨rfl, ?_, ?_, rfl, rfl⟩
  · intro h
    simp [get_activity_status, h]
  · intro h
    have h' : ¬((processFrameResult s .apiError).api_error_count ≥ API_ERROR_THRESHOLD) :=
      Nat.not_le.mpr h
    simp [get_activity_status, processFrameResult] at h' ⊢
    simp [h']

/-- Witness for the amended C3: from the healthy post-success state, one
failure yields counter 1 and the stored result is still reported; a
success from there re-stores a result with counter 0. -/
theorem failure_degrades_at_threshold_witness :
    ((processFrameResult cmAfterSuccess .apiError).api_error_count =
      cmAfterSuccess.api_error_count + 1) ∧
    ((processFrameResult cmAfterSuccess .apiError).api_error_count <
      API_ERROR_THRESHOLD) ∧
    get_activity_status (processFrameResult cmAfterSuccess .apiError) =
      (cmAfterSuccess.last_activity_result.activity,
       cmAfterSuccess.last_activity_result.activity_probability) ∧
    (processFrameResult cmAfterSuccess (.ok "Eating" (1 / 2))).api_error_count = 0 ∧
    (processFrameResult cmAfterSuccess (.ok "Eating" (1 / 2))).last_activity_result =
      { activity := "Eating", activity_probability := 1 / 2 } :=
  ⟨(failure_degrades_at_threshold cmAfterSuccess "Eating" (1 / 2)).1,
   by decide,
   (failure_degrades_at_threshold cmAfterSuccess "Eating" (1 / 2)).2.2.1 (by decide),
   (failure_degrades_at_threshold cmAfterSuccess "Eating" (1 / 2)).2.2.2.1,
   (failure_degrades_at_threshold cmAfterSuccess "Eating" (1 / 2)).2.2.2.2⟩

/-- C4: from a closed breaker (counter 0), three consecutive call failures
bring the counter exactly to the threshold and the reported activity is
`API Unavailable` with probability 0; a further failure still reports
`API Unavailable`; and one success resets the counter to exactly 0, after
which the adopted result is reported again. -/
theorem breaker_opens_after_three_failures (s : CameraManagerState) (a : String)
    (p : Rat) (h0 : s.api_error_count = 0) :
    (processFrameResult (processFrameResult (processFrameResult s .apiError)
        .apiError) .apiError).api_error_count = API_ERROR_THRESHOLD ∧
    get_activity_status (processFrameResult (processFrameResult
        (processFrameResult s .apiError) .apiError) .apiError) =
      ("API Unavailable", 0) ∧
    get_activity_status (processFrameResult (processFrameResult (processFrameResult
        (processFrameResult s .apiError) .apiError) .apiError) .apiError) =
      ("API Unavailable", 0) ∧
    (processFrameResult (processFrameResult (processFrameResult (processFrameResult
        s .apiError) .apiError) .apiError) (.ok a p)).api_error_count = 0 ∧
    get_activity_status (processFrameResult (processFrameResult (processFrameResult
        (processFrameResult s .apiError) .apiError) .apiError) (.ok a p)) = (a, p) := by
  have hc : (processFrameResult (processFrameResult (processFrameResult s .apiError)
      .apiError) .apiError).api_error_count = 3 := by
    simp [processFrameResult, h0]
  refine ⟨by simp [hc, API_ERROR_THRESHOLD], ?_, ?_, rfl, ?_⟩
  · simp [get_activity_status, hc, API_ERROR_THRESHOLD]
  · simp [get_activity_status, processFrameResult, hc, API_ERROR_THRESHOLD]
  · simp [get_activity_status, processFrameResult, API_ERROR_THRESHOLD]

/-- Witness for C4: the full failure/recovery scenario run from the
freshly initialised manager state. -/
theorem breaker_opens_after_three_failures_witness :
    initCameraManagerState.api_error_count = 0 ∧
    (processFrameResult (processFrameResult (processFrameResult
        initCameraManagerState .apiError) .apiError) .apiError).api_error_count =
      API_ERROR_THRESHOLD ∧
    get_activity_status (processFrameResult (processFrameResult
        (processFrameResult initCameraManagerState .apiError) .apiError) .apiError) =
      ("API Unavailable", 0) ∧
    get_activity_status (processFrameResult (processFrameResult (processFrameResult
        (processFrameResult initCameraManagerState .apiError) .apiError) .apiError)
        .apiError) = ("API Unavailable", 0) ∧
    (processFrameResult (processFrameResult (processFrameResult (processFrameResult
        initCameraManagerState .apiError) .apiError) .apiError)
        (.ok "Resting" (9 / 10))).api_error_count = 0 ∧
    get_activity_status (processFrameResult (processFrameResult (processFrameResult
        (processFrameResult initCameraManagerState .apiError) .apiError) .apiError)
        (.ok "Resting" (9 / 10))) = ("Resting", 9 / 10) :=
  ⟨rfl,
   (breaker_opens_after_three_failures initCameraManagerState "Resting" (9 / 10) rfl).1,
   (breaker_opens_after_three_failures initCameraManagerState "Resting" (9 / 10) rfl).2.1,
   (breaker_opens_after_three_failures initCameraManagerState "Resting" (9 / 10) rfl).2.2.1,
   (breaker_opens_after_three_failures initCameraManagerState "Resting" (9 / 10) rfl).2.2.2.1,
   (breaker_opens_after_three_failures initCameraManagerState "Resting" (9 / 10) rfl).2.2.2.2⟩

/-- C6: with the history at capacity, recording one more result drops
exactly the oldest entry and appends the new one, keeping the length at
capacity; and a record operation from any history at or below capacity
never leaves more than `max_history` (= 30) entries. -/
theorem recordActivity_fifo (h : List ActivityProbs) (r : ActivityProbs)
    (hfull : h.length = max_history) :
    recordActivity h r = h.drop 1 ++ [r] ∧
    (recordActivity h r).length = max_history ∧
    max_history = 30 ∧
    (∀ h' : List ActivityProbs, h'.length ≤ max_history →
      (recordActivity h' r).length ≤ max_history) := by
  have hlen : (h ++ [r]).length = max_history + 1 := by
    simp [List.length_append, hfull]
  refine ⟨?_, ?_, rfl, ?_⟩
  · simp only [recordActivity, hlen]
    rw [if_pos (Nat.lt_succ_self _)]
    cases h with
    | nil => simp [max_history] at hfull
    | cons x xs => simp
  · simp only [recordActivity, hlen]
    rw [if_pos (Nat.lt_succ_self _)]
    simp [List.length_append, hfull]
  · intro h' hle
    simp only [recordActivity]
    split
    · simp [List.length_append]
      omega
    · next hgt => omega

/-- Witness for C6: a full 30-entry history of `a`s receives `b`; the
oldest `a` is evicted, 29 `a`s and the `b` remain in order. -/
theorem recordActivity_fifo_witness :
    (List.replicate 30 zeroProbs).length = max_history ∧
    recordActivity (List.replicate 30 zeroProbs) ⟨1, 0, 0, 0, 0⟩ =
      List.replicate 29 zeroProbs ++ [⟨1, 0, 0, 0, 0⟩] ∧
    (recordActivity (List.replicate 30 zeroProbs) ⟨1, 0, 0, 0, 0⟩).length =
      max_history :=
  ⟨by decide,
   by rw [(recordActivity_fifo (List.replicate 30 zeroProbs) ⟨1, 0, 0, 0, 0⟩
       (by decide)).1]; decide,
   (recordActivity_fifo (List.replicate 30 zeroProbs) ⟨1, 0, 0, 0, 0⟩
       (by decide)).2.1⟩

theorem foldl_recordActivity_no_evict :
    ∀ (rs : List ActivityProbs) (h : List ActivityProbs),
      h.length + rs.length ≤ max_history →
      rs.foldl recordActivity h = h ++ rs := by
  intro rs
  induction rs with
  | nil => intro h _; simp
  | cons r rs ih =>
    intro h hle
    simp only [List.foldl_cons]
    have hrec : recordActivity h r = h ++ [r] := by
      have hng : ¬(h ++ [r]).length > max_history := by
        simp only [List.length_append, List.length_cons, List.length_nil] at hle ⊢
        omega
      simp only [recordActivity]
      rw [if_neg hng]
    rw [hrec, ih (h ++ [r])
      (by simp only [List.length_append, List.length_cons, List.length_nil] at hle ⊢
          omega)]
    simp

theorem score_addProbs (k : String) (a b : ActivityProbs) :
    score k (addProbs a b) = score k a + score k b := by
  simp only [score, addProbs]
  split_ifs <;> simp

theorem score_foldl_addProbs (k : String) :
    ∀ (rs : List ActivityProbs) (a : ActivityProbs),
      score k (rs.foldl addProbs a) = score k a + (rs.map (score k)).sum := by
  intro rs
  induction rs with
  | nil => intro a; simp
  | cons p rs ih =>
    intro a
    simp only [List.foldl_cons, List.map_cons, List.sum_cons, ih, score_addProbs]
    ring

theorem score_zeroProbs (k : String) : score k zeroProbs = 0 := by
  simp only [score, zeroProbs]
  split_ifs <;> rfl

theorem lookup_skip {β : Type} {v : β} {l : List (String × β)} {a k : String}
    (h : (a == k) = false) : List.lookup a ((k, v) :: l) = List.lookup a l := by
  simp [List.lookup, h]

/-- C7: for every history built by at most 30 record operations (so no
eviction happens and every recorded result is retained), the averages
mapping has exactly the five known labels as keys — no more, no fewer,
whatever was recorded — and the entry of each label is the arithmetic
mean of that label's score over the recorded results; on the empty
history every label maps to 0. -/
theorem get_activity_pattern_mean (rs : List ActivityProbs)
    (hn : rs.length ≤ max_history) :
    ((get_activity_pattern (rs.foldl recordActivity [])).map Prod.fst =
      ACTIVITY_LABELS) ∧
    ∀ k ∈ ACTIVITY_LABELS,
      (get_activity_pattern (rs.foldl recordActivity [])).lookup k =
        some (if rs.isEmpty then 0
              else (rs.map (score k)).sum / (rs.length : Rat)) := by
  have hfold : rs.foldl recordActivity [] = rs := by
    have := foldl_recordActivity_no_evict rs [] (by simpa using hn)
    simpa using this
  rw [hfold]
  rcases rs with _ | ⟨p, rs'⟩
  · refine ⟨by decide, ?_⟩
    intro k hk
    simp only [ACTIVITY_LABELS, List.mem_cons, List.not_mem_nil, or_false] at hk
    rcases hk with rfl | rfl | rfl | rfl | rfl <;> rfl
  · have htot : ∀ k, ((p :: rs').foldl addProbs zeroProbs |> score k) =
        ((p :: rs').map (score k)).sum := by
      intro k
      rw [score_foldl_addProbs k (p :: rs') zeroProbs, score_zeroProbs, zero_add]
    refine ⟨by simp [get_activity_pattern, ACTIVITY_LABELS], ?_⟩
    intro k hk
    simp only [ACTIVITY_LABELS, List.mem_cons, List.not_mem_nil, or_false] at hk
    rcases hk with rfl | rfl | rfl | rfl | rfl
    · rw [← htot "running"]; simp [get_activity_pattern, score]
    · rw [← htot "eating"]; simp [get_activity_pattern, score]
      rw [lookup_skip (by decide)]
      simp [List.lookup]
    · rw [← htot "drinking"]; simp [get_activity_pattern, score]
      rw [lookup_skip (by decide), lookup_skip (by decide)]
      simp [List.lookup]
    · rw [← htot "sleeping"]; simp [get_activity_pattern, score]
      rw [lookup_skip (by decide), lookup_skip (by decide), lookup_skip (by decide)]
      simp [List.lookup]
    · rw [← htot "exploring"]; simp [get_activity_pattern, score]
      rw [lookup_skip (by decide), lookup_skip (by decide), lookup_skip (by decide),
        lookup_skip (by decide)]
      simp [List.lookup]

/-- Witness for C7: recording two concrete results yields a mapping keyed
exactly by the five labels whose `running` entry is the mean of the two
recorded `running` scores. -/
theorem get_activity_pattern_mean_witness :
    probsHistEx.length ≤ max_history ∧
    ((get_activity_pattern (probsHistEx.foldl recordActivity [])).map Prod.fst =
      ACTIVITY_LABELS) ∧
    (get_activity_pattern (probsHistEx.foldl recordActivity [])).lookup "running" =
      some (if probsHistEx.isEmpty then 0
            else (probsHistEx.map (score "running")).sum / (probsHistEx.length : Rat)) :=
  ⟨by decide,
   (get_activity_pattern_mean probsHistEx (by decide)).1,
   (get_activity_pattern_mean probsHistEx (by decide)).2 "running" (by decide)⟩

/-- C8: a full queue drops the offered frame and is left unchanged; a
non-full queue appends it; offering any frame sequence to an initially
empty queue retains exactly the first `maxsize` frames in offer order, so
repeated dequeues return the retained frames first-in-first-out; and the
configured capacity is 10. -/
theorem frame_queue_bounded {α : Type} (maxsize : Nat) :
    (∀ (q : List α) (x : α), q.length ≥ maxsize → enqueueFrame maxsize q x = q) ∧
    (∀ (q : List α) (x : α), q.length < maxsize →
      enqueueFrame maxsize q x = q ++ [x]) ∧
    (∀ xs : List α, xs.foldl (enqueueFrame maxsize) [] = xs.take maxsize) ∧
    (∀ (y : α) (rest : List α), dequeueFrame (y :: rest) = some (y, rest)) ∧
    frame_queue_maxsize = 10 := by
  have key : ∀ (xs q : List α), q.length ≤ maxsize →
      xs.foldl (enqueueFrame maxsize) q = q ++ xs.take (maxsize - q.length) := by
    intro xs
    induction xs with
    | nil => intro q _; simp
    | cons x xs ih =>
      intro q hq
      simp only [List.foldl_cons]
      rcases Nat.lt_or_ge q.length maxsize with hlt | hge
      · have he : enqueueFrame maxsize q x = q ++ [x] := by
          simp [enqueueFrame, Nat.not_le.mpr hlt]
        have hlen : (q ++ [x]).length ≤ maxsize := by
          simp only [List.length_append, List.length_cons, List.length_nil]
          omega
        rw [he, ih (q ++ [x]) hlen]
        have hts : maxsize - q.length = (maxsize - (q ++ [x]).length) + 1 := by
          simp only [List.length_append, List.length_cons, List.length_nil]
          omega
        rw [hts, List.take_succ_cons]
        simp
      · have heq : q.length = maxsize := Nat.le_antisymm hq hge
        have he : enqueueFrame maxsize q x = q := by
          simp [enqueueFrame, hge]
        rw [he, ih q hq]
        simp [heq]
  refine ⟨?_, ?_, ?_, fun y rest => rfl, rfl⟩
  · intro q x h
    simp [enqueueFrame, h]
  · intro q x h
    simp [enqueueFrame, Nat.not_le.mpr h]
  · intro xs
    have := key xs [] (by simp)
    simpa using this

/-- Witness for C8, the spec's capacity-2 scenario with frames numbered
100, 200, 300: enqueueing the third frame while two are pending drops it,
a non-full enqueue appends, and dequeue returns the oldest retained
frame. -/
theorem frame_queue_bounded_witness :
    ([100, 200] : List Nat).length ≥ 2 ∧
    enqueueFrame 2 [100, 200] 300 = [100, 200] ∧
    ([100] : List Nat).length < 2 ∧
    enqueueFrame 2 [100] 200 = [100, 200] ∧
    ([100, 200, 300] : List Nat).foldl (enqueueFrame 2) [] = [100, 200] ∧
    dequeueFrame [100, 200] = some (100, [200]) ∧
    frame_queue_maxsize = 10 :=
  ⟨by decide,
   (@frame_queue_bounded Nat 2).1 [100, 200] 300 (by decide),
   by decide,
   (@frame_queue_bounded Nat 2).2.1 [100] 200 (by decide),
   (@frame_queue_bounded Nat 2).2.2.1 [100, 200, 300],
   (@frame_queue_bounded Nat 2).2.2.2.1 100 [200],
   (@frame_queue_bounded Nat 2).2.2.2.2⟩

/-- C9: if every retry attempt of a read cycle fails, the stored reading
is returned completely unchanged — temperature, humidity, air-quality
label, PPM and the stored read time all keep their previous values, so
`get_readings` still reports the old values and the old timestamp is
still in the slot. -/
theorem read_sensors_all_fail (st : SensorReadings) (now : Rat)
    (attempts : List SensorAttempt)
    (hfail : ∀ a ∈ attempts, attemptSucceeds a = false) :
    read_sensors st now attempts = (st, false) ∧
    get_readings (read_sensors st now attempts).1 = get_readings st ∧
    (read_sensors st now attempts).1.last_read_time = st.last_read_time := by
  have hmain : read_sensors st now attempts = (st, false) := by
    induction attempts with
    | nil => rfl
    | cons a rest ih =>
      have hrest : ∀ a ∈ rest, attemptSucceeds a = false :=
        fun a' ha' => hfail a' (List.mem_cons_of_mem _ ha')
      have ha := hfail a (List.mem_cons_self _ _)
      cases a with
      | raises => simpa [read_sensors] using ih hrest
      | reads t h aq ppm =>
        cases t with
        | none =>
          cases h <;> simpa [read_sensors] using ih hrest
        | some tv =>
          cases h with
          | none => simpa [read_sensors] using ih hrest
          | some hv => simp [attemptSucceeds] at ha
  exact ⟨hmain, by rw [hmain], by rw [hmain]⟩

/-- Witness for C9: a cycle of `max_retries` = 3 failing attempts (an
exception, a humidity-only read, an exception) leaves the stored reading
and its timestamp untouched. -/
theorem read_sensors_all_fail_witness :
    ([.raises, .reads none (some 41) "Good" 80, .raises] :
        List SensorAttempt).length = max_retries ∧
    read_sensors sensorStEx 2000 [.raises, .reads none (some 41) "Good" 80, .raises] =
      (sensorStEx, false) ∧
    get_readings (read_sensors sensorStEx 2000
        [.raises, .reads none (some 41) "Good" 80, .raises]).1 =
      get_readings sensorStEx ∧
    (read_sensors sensorStEx 2000
        [.raises, .reads none (some 41) "Good" 80, .raises]).1.last_read_time =
      sensorStEx.last_read_time :=
  ⟨by decide,
   (read_sensors_all_fail sensorStEx 2000
      [.raises, .reads none (some 41) "Good" 80, .raises] (by decide)).1,
   (read_sensors_all_fail sensorStEx 2000
      [.raises, .reads none (some 41) "Good" 80, .raises] (by decide)).2.1,
   (read_sensors_all_fail sensorStEx 2000
      [.raises, .reads none (some 41) "Good" 80, .raises] (by decide)).2.2⟩
